import Mathlib

/-!
Verification of the scratch-memory allocation core of `dali/kernels/context.h`
(DALI repository).

The development shallowly embeds:

* the memory-space kinds (`AllocType`) and the single allocation primitive
  `Scratchpad::Alloc(alloc_type, bytes, alignment)`;
* the typed allocation helpers `Allocate`, `AllocTensor`, `AllocTensorList`
  from `context.h`;
* the single-collection transfer helpers `ToHost`, `ToPinned`, `ToUnified`,
  `ToGPU` from `context.h`;
* the multi-collection contiguous packing `ToContiguousHostMem` /
  `ToContiguousGPUMem`.  Only the declarations of these two functions appear
  in `context.h` (lines 40-46); their bodies live in
  `dali/kernels/scratch_copy_impl.h`, which is not part of the shown sources,
  so the packing functions are modelled from the specification.

Calls into the external backing allocator and the copy/transfer primitives
are recorded as an event trace, so that claims about the exact number of
allocation, copy and asynchronous-transfer calls become statements about the
trace produced by each operation.  Machine addresses and byte counts are
modelled as `Nat`; the `size_t` range limit enters as an explicit
`maxBytes` bound where the specification mentions overflow.
-/

namespace DALI

/-- The memory-space kinds (`AllocType` from `dali/kernels/alloc_type.h`):
ordinary host memory, pinned host memory, device (GPU) memory and unified
memory. -/
inductive AllocType where
  | Host
  | Pinned
  | GPU
  | Unified
deriving DecidableEq, Repr

/-- Compile-time facts about a C++ element type `T` that the helpers use:
`sizeof(T)` and `alignof(T)`. -/
structure TypeDesc where
  size : Nat
  align : Nat
deriving DecidableEq, Repr

/-- One observable call into the external collaborators:
* `alloc t bytes align` — a call of the backing allocator primitive
  `Scratchpad::Alloc(t, bytes, align)`;
* `hostCopy dst bytes` — a synchronous host-side copy of `bytes` bytes whose
  destination starts at address `dst` (`std::copy` / host `memcpy`);
* `h2dAsync stream dst bytes` — one `cudaMemcpyAsync` host-to-device transfer
  of `bytes` bytes to address `dst`, enqueued on `stream`;
* `blockingWait` — a blocking synchronization with the device.  The core
  never issues one; the constructor exists so that "never blocks" is a
  statement about the trace. -/
inductive Event where
  | alloc (t : AllocType) (bytes : Nat) (align : Nat)
  | hostCopy (dst : Nat) (bytes : Nat)
  | h2dAsync (stream : Nat) (dst : Nat) (bytes : Nat)
  | blockingWait
deriving DecidableEq, Repr

/-- Whether an event is an allocator call. -/
def Event.isAlloc : Event → Bool
  | .alloc _ _ _ => true
  | _ => false

/-- Whether an event is an allocator call for memory kind `t`. -/
def Event.isAllocOf (t : AllocType) : Event → Bool
  | .alloc u _ _ => u = t
  | _ => false

/-- Whether an event is a synchronous host-side copy. -/
def Event.isHostCopy : Event → Bool
  | .hostCopy _ _ => true
  | _ => false

/-- Whether an event is an asynchronous host-to-device transfer. -/
def Event.isH2D : Event → Bool
  | .h2dAsync _ _ _ => true
  | _ => false

/-- Whether an event is a blocking wait on the device. -/
def Event.isBlockingWait : Event → Bool
  | .blockingWait => true
  | _ => false

/-- The external backing allocator, as a pure function from a request
`(kind, bytes, alignment)` to the base address it hands out.  The concrete
arena strategy is outside this core. -/
def Allocator : Type := AllocType → Nat → Nat → Nat

/-- `Scratchpad::Alloc` (context.h line 56): the one virtual primitive.
It forwards the request to the backing allocator and the request itself is
recorded in the trace. -/
def Alloc (A : Allocator) (t : AllocType) (bytes align : Nat) : Nat × List Event :=
  (A t bytes align, [Event.alloc t bytes align])

/-- `Scratchpad::Allocate<T>` (context.h lines 93-96):
`Alloc(alloc_type, count*sizeof(T), alignment)`, reinterpreted as `T*`. -/
def Allocate (A : Allocator) (T : TypeDesc) (t : AllocType) (count alignment : Nat) :
    Nat × List Event :=
  Alloc A t (count * T.size) alignment

/-- `Scratchpad::Allocate<T>` with the defaulted alignment argument
`alignment = alignof(T)`. -/
def AllocateDefault (A : Allocator) (T : TypeDesc) (t : AllocType) (count : Nat) :
    Nat × List Event :=
  Allocate A T t count T.align

/-- Element volume of a tensor shape: the product of its extents (the
`volume` query on the external shape type). -/
def volume (shape : List Nat) : Nat := shape.foldl (· * ·) 1

/-- The external `TensorListShape`: an ordered list of per-item shapes. -/
structure TensorListShape where
  shapes : List (List Nat)
deriving DecidableEq, Repr

/-- `TensorListShape::num_elements()`: total element count over all items. -/
def TensorListShape.num_elements (s : TensorListShape) : Nat :=
  (s.shapes.map volume).sum

/-- `Scratchpad::AllocTensor` (context.h lines 62-65): one defaulted-alignment
typed allocation of `volume(shape)` elements, returning a view pairing the
fresh pointer with the given shape. -/
def AllocTensor (A : Allocator) (T : TypeDesc) (t : AllocType) (shape : List Nat) :
    (Nat × List Nat) × List Event :=
  let r := AllocateDefault A T t (volume shape)
  ((r.1, shape), r.2)

/-- `Scratchpad::AllocTensorList`, `TensorListShape` overload (context.h
lines 81-87): one defaulted-alignment typed allocation of
`shape.num_elements()` elements backing all items, returned as a view with
the given shape list. -/
def AllocTensorList (A : Allocator) (T : TypeDesc) (t : AllocType)
    (shape : TensorListShape) : (Nat × TensorListShape) × List Event :=
  let r := AllocateDefault A T t shape.num_elements
  ((r.1, shape), r.2)

/-- `Scratchpad::AllocTensorList`, `std::vector<TensorShape>` overload
(context.h lines 71-75): constructs a `TensorListShape` from the vector and
delegates to the `TensorListShape` overload. -/
def AllocTensorListVec (A : Allocator) (T : TypeDesc) (t : AllocType)
    (shapes : List (List Nat)) : (Nat × TensorListShape) × List Event :=
  AllocTensorList A T t (TensorListShape.mk shapes)

/-- Round `x` up to the next multiple of `a` (for `0 < a`):
`(x + a - 1) / a * a`. -/
def alignUp (x a : Nat) : Nat := (x + a - 1) / a * a

/-- Host-addressable memory, at element granularity: each address holds one
element of the collection's type, or nothing if never written. -/
def Mem (α : Type) : Type := Nat → Option α

/-- `std::copy(begin(c), end(c), ptr)`: write the elements of `c` into memory
at consecutive addresses starting at `p`. -/
def copyToMem (m : Mem α) (p : Nat) : List α → Mem α
  | [] => m
  | x :: xs => copyToMem (fun a => if a = p then some x else m a) (p + 1) xs

/-- `Scratchpad::ToHost` (context.h lines 106-112): allocate `size(c)`
elements of host memory at `alignof(T)` and copy the collection in with
`std::copy`.  Result: the returned pointer, the memory after the copy, and
the trace of external calls. -/
def ToHost (A : Allocator) (T : TypeDesc) (m : Mem α) (c : List α) :
    Nat × Mem α × List Event :=
  let p := A AllocType.Host (c.length * T.size) T.align
  (p, copyToMem m p c,
   [Event.alloc AllocType.Host (c.length * T.size) T.align,
    Event.hostCopy p (c.length * T.size)])

/-- `Scratchpad::ToPinned` (context.h lines 114-120): as `ToHost` but into
pinned host memory. -/
def ToPinned (A : Allocator) (T : TypeDesc) (m : Mem α) (c : List α) :
    Nat × Mem α × List Event :=
  let p := A AllocType.Pinned (c.length * T.size) T.align
  (p, copyToMem m p c,
   [Event.alloc AllocType.Pinned (c.length * T.size) T.align,
    Event.hostCopy p (c.length * T.size)])

/-- `Scratchpad::ToUnified` (context.h lines 122-128): as `ToHost` but into
unified memory. -/
def ToUnified (A : Allocator) (T : TypeDesc) (m : Mem α) (c : List α) :
    Nat × Mem α × List Event :=
  let p := A AllocType.Unified (c.length * T.size) T.align
  (p, copyToMem m p c,
   [Event.alloc AllocType.Unified (c.length * T.size) T.align,
    Event.hostCopy p (c.length * T.size)])

/-- `Scratchpad::ToGPU` (context.h lines 98-104): allocate `size(c)` elements
of GPU memory, then enqueue `cudaMemcpyAsync(ptr, &c[0], size(c)*sizeof(T),
HostToDevice, stream)`.  The middle component records the value read through
the source expression `&c[0]`: `none` when the collection has no element 0,
in which case the C++ access has no valid target. -/
def ToGPU (A : Allocator) (T : TypeDesc) (stream : Nat) (c : List α) :
    Nat × Option α × List Event :=
  let p := A AllocType.GPU (c.length * T.size) T.align
  (p, c.head?,
   [Event.alloc AllocType.GPU (c.length * T.size) T.align,
    Event.h2dAsync stream p (c.length * T.size)])

/-- One input collection of the packing algorithm, reduced to what the
layout depends on: its total byte size `length_i * elementSize_i` and its
element alignment. -/
structure Slot where
  size : Nat
  align : Nat
deriving DecidableEq, Repr

/-- Modelled from the spec (the bodies of `ToContiguousHostMem` /
`ToContiguousGPUMem` live in `dali/kernels/scratch_copy_impl.h`, which is
not among the shown sources): the cursor walk of §4.3 step 2.  Starting from
`cursor`, each collection's offset is the cursor rounded up to its own
alignment, after which the cursor advances by the collection's size. -/
def layout (cursor : Nat) : List Slot → List Nat
  | [] => []
  | s :: rest =>
      alignUp cursor s.align :: layout (alignUp cursor s.align + s.size) rest

/-- The offsets of a packing plan, with the cursor initialized to 0. -/
def offsets (slots : List Slot) : List Nat := layout 0 slots

/-- Modelled from the spec (§4.3 step 3, body in the missing
`scratch_copy_impl.h`): the cursor value after the last collection. -/
def totalSize (cursor : Nat) : List Slot → Nat
  | [] => cursor
  | s :: rest => totalSize (alignUp cursor s.align + s.size) rest

/-- Modelled from the spec (§4.3 step 3, body in the missing
`scratch_copy_impl.h`): the largest alignment seen, or the minimum default 1
when there are no collections. -/
def maxAlign (slots : List Slot) : Nat :=
  slots.foldl (fun m s => max m s.align) 1

/-- Failures of the backing allocator (spec §4.1). -/
inductive AllocFailure where
  | exhausted
  | alignmentUnsupported
deriving DecidableEq, Repr

/-- Failures of a packing call (spec §7): size-computation overflow, or a
propagated allocator failure. -/
inductive PackError where
  | overflow
  | allocFail (e : AllocFailure)
deriving DecidableEq, Repr

/-- A backing allocator that can fail (spec §4.1): either a base address or
an `AllocFailure`. -/
def FAllocator : Type := AllocType → Nat → Nat → Except AllocFailure Nat

/-- Modelled from the spec: `ToContiguousHostMem` (declared at context.h
lines 40-42, body in the missing `dali/kernels/scratch_copy_impl.h`).
Computes the packing plan; fails with `overflow` before any allocation when
the total exceeds the representable range `maxBytes`; issues exactly one
allocation `(Host, total, maxAlign)`; on allocator failure aborts with
nothing retained and no copy attempted; otherwise copies each collection to
`base + offset_i` and returns the pointers `base + offset_i` in input
order. -/
def ToContiguousHostMem (A : FAllocator) (maxBytes : Nat) (slots : List Slot) :
    Except PackError (List Nat) × List Event :=
  if maxBytes < totalSize 0 slots then (Except.error PackError.overflow, [])
  else
    match A AllocType.Host (totalSize 0 slots) (maxAlign slots) with
    | Except.error e =>
        (Except.error (PackError.allocFail e),
         [Event.alloc AllocType.Host (totalSize 0 slots) (maxAlign slots)])
    | Except.ok base =>
        (Except.ok ((offsets slots).map (fun o => base + o)),
         Event.alloc AllocType.Host (totalSize 0 slots) (maxAlign slots) ::
           ((offsets slots).zip slots).map
             (fun q => Event.hostCopy (base + q.1) q.2.size))

/-- Modelled from the spec: `ToContiguousGPUMem` (declared at context.h
lines 44-46, body in the missing `dali/kernels/scratch_copy_impl.h`).
As `ToContiguousHostMem`, but the destination allocation is on the GPU; the
image is assembled in one scratch host staging allocation by N host-side
copies and then shipped by exactly one asynchronous transfer of the whole
`total`-byte image on the caller-supplied stream. -/
def ToContiguousGPUMem (A : FAllocator) (maxBytes : Nat) (stream : Nat)
    (slots : List Slot) : Except PackError (List Nat) × List Event :=
  if maxBytes < totalSize 0 slots then (Except.error PackError.overflow, [])
  else
    match A AllocType.GPU (totalSize 0 slots) (maxAlign slots) with
    | Except.error e =>
        (Except.error (PackError.allocFail e),
         [Event.alloc AllocType.GPU (totalSize 0 slots) (maxAlign slots)])
    | Except.ok base =>
        match A AllocType.Host (totalSize 0 slots) (maxAlign slots) with
        | Except.error e =>
            (Except.error (PackError.allocFail e),
             [Event.alloc AllocType.GPU (totalSize 0 slots) (maxAlign slots),
              Event.alloc AllocType.Host (totalSize 0 slots) (maxAlign slots)])
        | Except.ok stage =>
            (Except.ok ((offsets slots).map (fun o => base + o)),
             Event.alloc AllocType.GPU (totalSize 0 slots) (maxAlign slots) ::
               Event.alloc AllocType.Host (totalSize 0 slots) (maxAlign slots) ::
               ((offsets slots).zip slots).map
                 (fun q => Event.hostCopy (stage + q.1) q.2.size) ++
               [Event.h2dAsync stream base (totalSize 0 slots)])

/-- A backing allocator that always succeeds, returning base address 100. -/
def okAllocator : FAllocator := fun _ _ _ => Except.ok 100

/-- A backing allocator whose store is exhausted: every request fails. -/
def failAllocator : FAllocator := fun _ _ _ => Except.error AllocFailure.exhausted

/-- A raw (infallible) allocator returning base address 50. -/
def rawAllocator : Allocator := fun _ _ _ => 50

/-- Initially empty host memory over `Nat` elements. -/
def emptyMem : Mem Nat := fun _ => none

/-- Two concrete collections: 12 bytes at alignment 4 (three 4-byte
integers), then 16 bytes at alignment 8 (two 8-byte floats). -/
def demoSlots : List Slot := [Slot.mk 12 4, Slot.mk 16 8]

/-- Two concrete collections of 100 and 250 bytes of 4-byte-aligned
elements, as in the spec's device-packing test. -/
def gpuSlots : List Slot := [Slot.mk 100 4, Slot.mk 250 4]

end DALI

namespace DALI

theorem le_alignUp (x : Nat) {a : Nat} (ha : 0 < a) : x ≤ alignUp x a := by
  have h : x + a - 1 < (x + a - 1) / a * a + a := Nat.lt_div_mul_add ha
  unfold alignUp
  omega

theorem dvd_alignUp (x a : Nat) : a ∣ alignUp x a :=
  dvd_mul_left a ((x + a - 1) / a)

theorem alignUp_le {x a y : Nat} (ha : 0 < a) (hxy : x ≤ y) (hd : a ∣ y) :
    alignUp x a ≤ y := by
  obtain ⟨k, rfl⟩ := hd
  have h1 : x + a - 1 ≤ a * k + (a - 1) := by omega
  have h2 : (a * k + (a - 1)) / a = k + (a - 1) / a := Nat.mul_add_div ha k (a - 1)
  have h3 : (a - 1) / a = 0 := Nat.div_eq_of_lt (by omega)
  have hdiv : (x + a - 1) / a ≤ k := by
    have := Nat.div_le_div_right (c := a) h1
    omega
  calc alignUp x a = (x + a - 1) / a * a := rfl
    _ ≤ k * a := Nat.mul_le_mul_right a hdiv
    _ = a * k := Nat.mul_comm k a

theorem alignUp_isLeast (x : Nat) {a : Nat} (ha : 0 < a) :
    IsLeast {o | x ≤ o ∧ a ∣ o} (alignUp x a) := by
  refine ⟨⟨le_alignUp x ha, dvd_alignUp x a⟩, ?_⟩
  rintro y ⟨h1, h2⟩
  exact alignUp_le ha h1 h2

theorem alignUp_alignUp {x za a : Nat} (hza : 0 < za) (ha : 0 < a)
    (hdvd : za ∣ a) : alignUp (alignUp x za) a = alignUp x a := by
  apply Nat.le_antisymm
  · exact alignUp_le ha
      (alignUp_le hza (le_alignUp x ha) (hdvd.trans (dvd_alignUp x a)))
      (dvd_alignUp x a)
  · exact alignUp_le ha ((le_alignUp x hza).trans (le_alignUp (alignUp x za) ha))
      (dvd_alignUp (alignUp x za) a)

theorem copyToMem_lower (m : Mem α) (p a : Nat) (c : List α) (h : a < p) :
    copyToMem m p c a = m a := by
  induction c generalizing m p with
  | nil => rfl
  | cons x xs ih =>
    show copyToMem (fun b => if b = p then some x else m b) (p + 1) xs a = m a
    rw [ih _ (p + 1) (by omega)]
    simp [Nat.ne_of_lt h]

theorem copyToMem_read (m : Mem α) (p : Nat) (c : List α) (j : Nat)
    (hj : j < c.length) : copyToMem m p c (p + j) = some (c.get ⟨j, hj⟩) := by
  induction c generalizing m p j with
  | nil => simp at hj
  | cons x xs ih =>
    match j with
    | 0 =>
      show copyToMem (fun b => if b = p then some x else m b) (p + 1) xs p = _
      rw [copyToMem_lower _ _ _ _ (by omega)]
      simp
    | Nat.succ j =>
      have : p + (j + 1) = (p + 1) + j := by omega
      rw [this]
      exact ih _ (p + 1) j (by simpa using hj)

theorem layout_length (c : Nat) (slots : List Slot) :
    (layout c slots).length = slots.length := by
  induction slots generalizing c with
  | nil => rfl
  | cons s rest ih => simp [layout, ih]

theorem layout_head (c : Nat) (slots : List Slot) :
    (layout c slots).head? = slots.head?.map (fun s => alignUp c s.align) := by
  cases slots <;> rfl

theorem layout_ge (c : Nat) (slots : List Slot)
    (h : ∀ s ∈ slots, 0 < s.align) : ∀ o ∈ layout c slots, c ≤ o := by
  induction slots generalizing c with
  | nil => simp [layout]
  | cons s rest ih =>
    intro o ho
    rcases List.mem_cons.mp ho with h1 | h2
    · exact h1 ▸ le_alignUp c (h s (List.mem_cons_self s rest))
    · have h3 := ih (alignUp c s.align + s.size)
        (fun t ht => h t (List.mem_cons_of_mem s ht)) o h2
      have h4 := le_alignUp c (h s (List.mem_cons_self s rest))
      omega

theorem layout_chain_least (c : Nat) (slots : List Slot)
    (h : ∀ s ∈ slots, 0 < s.align) :
    List.Chain' (fun p q : Nat × Slot =>
        IsLeast {o | p.1 + p.2.size ≤ o ∧ q.2.align ∣ o} q.1)
      ((layout c slots).zip slots) := by
  induction slots generalizing c with
  | nil => simp [layout]
  | cons s rest ih =>
    show List.Chain' _ (((alignUp c s.align, s)) ::
      (layout (alignUp c s.align + s.size) rest).zip rest)
    rw [List.chain'_cons']
    constructor
    · intro y hy
      cases rest with
      | nil => simp [layout] at hy
      | cons t rest2 =>
        have hsub : (alignUp (alignUp c s.align + s.size) t.align, t) = y := by
          simpa [layout] using hy
        subst hsub
        exact alignUp_isLeast (alignUp c s.align + s.size)
          (h t (List.mem_cons_of_mem s (List.mem_cons_self t rest2)))
    · exact ih _ (fun t ht => h t (List.mem_cons_of_mem s ht))

theorem layout_pairwise (c : Nat) (slots : List Slot)
    (h : ∀ s ∈ slots, 0 < s.align) :
    List.Pairwise (fun p q : Nat × Slot => p.1 + p.2.size ≤ q.1)
      ((layout c slots).zip slots) := by
  induction slots generalizing c with
  | nil => simp [layout]
  | cons s rest ih =>
    show List.Pairwise _ (((alignUp c s.align, s)) ::
      (layout (alignUp c s.align + s.size) rest).zip rest)
    refine List.Pairwise.cons ?_ (ih _ (fun t ht => h t (List.mem_cons_of_mem s ht)))
    rintro ⟨o, t⟩ hq
    exact layout_ge _ rest (fun u hu => h u (List.mem_cons_of_mem s hu)) o
      (List.of_mem_zip hq).1

theorem le_foldl_max (l : List Nat) (a : Nat) : a ≤ l.foldl max a := by
  induction l generalizing a with
  | nil => exact Nat.le_refl a
  | cons x xs ih => exact (Nat.le_max_left a x).trans (ih (max a x))

theorem foldl_max_le_elem (l : List Nat) (a : Nat) :
    ∀ x ∈ l, x ≤ l.foldl max a := by
  induction l generalizing a with
  | nil => simp
  | cons y ys ih =>
    intro x hx
    rcases List.mem_cons.mp hx with h1 | h2
    · exact h1 ▸ (Nat.le_max_right a y).trans (le_foldl_max ys (max a y))
    · exact ih (max a y) x h2

theorem foldl_max_mem (l : List Nat) (a : Nat) :
    l.foldl max a = a ∨ l.foldl max a ∈ l := by
  induction l generalizing a with
  | nil => exact Or.inl rfl
  | cons x xs ih =>
    rcases ih (max a x) with h1 | h2
    · rcases max_choice a x with h3 | h4
      · exact Or.inl (by simpa [h3] using h1)
      · exact Or.inr (by simp [List.foldl_cons]; left; rw [h1, h4])
    · exact Or.inr (List.mem_cons_of_mem x (by simpa using h2))

theorem maxAlign_eq_foldl (slots : List Slot) :
    maxAlign slots = (slots.map Slot.align).foldl max 1 := by
  rw [maxAlign, List.foldl_map]

theorem maxAlign_is_ub (slots : List Slot) :
    ∀ s ∈ slots, s.align ≤ maxAlign slots := by
  intro s hs
  rw [maxAlign_eq_foldl]
  exact foldl_max_le_elem _ 1 s.align (List.mem_map_of_mem Slot.align hs)

theorem maxAlign_mem (slots : List Slot) (hne : slots ≠ [])
    (hpos : ∀ s ∈ slots, 0 < s.align) :
    maxAlign slots ∈ slots.map Slot.align := by
  rcases foldl_max_mem (slots.map Slot.align) 1 with h1 | h2
  · cases slots with
    | nil => exact absurd rfl hne
    | cons s rest =>
      have hub := maxAlign_is_ub (s :: rest) s (List.mem_cons_self s rest)
      have h1' : maxAlign (s :: rest) = 1 := by rw [maxAlign_eq_foldl]; exact h1
      have hp := hpos s (List.mem_cons_self s rest)
      have hsa : s.align = maxAlign (s :: rest) := by omega
      rw [← hsa]
      exact List.mem_map_of_mem Slot.align (List.mem_cons_self s rest)
  · rw [maxAlign_eq_foldl]
    exact h2

theorem filter_split_allocFirst (pre l : List Event)
    (hpre : ∀ e ∈ pre, e.isAlloc = true)
    (hl : ∀ e ∈ l, e.isAlloc = false) :
    pre ++ l = (pre ++ l).filter Event.isAlloc ++
      (pre ++ l).filter (fun ev => !ev.isAlloc) := by
  rw [List.filter_append, List.filter_append]
  rw [List.filter_eq_self.mpr hpre]
  rw [List.filter_eq_nil_iff.mpr (by intro e he; rw [hl e he]; simp)]
  rw [List.filter_eq_nil_iff.mpr (by intro e he; rw [hpre e he]; simp)]
  rw [List.filter_eq_self.mpr (by intro e he; rw [hl e he]; rfl)]
  simp

theorem countP_map_hostCopy (p : Event → Bool) (f : Nat × Slot → Nat)
    (hp : ∀ d b, p (Event.hostCopy d b) = false) (l : List (Nat × Slot)) :
    (l.map (fun q => Event.hostCopy (f q) q.2.size)).countP p = 0 := by
  induction l with
  | nil => rfl
  | cons q rest ih => simp [List.countP_cons, hp, ih]

theorem countP_map_hostCopy_self (f : Nat × Slot → Nat)
    (l : List (Nat × Slot)) :
    (l.map (fun q => Event.hostCopy (f q) q.2.size)).countP Event.isHostCopy
      = l.length := by
  induction l with
  | nil => rfl
  | cons q rest ih => simp [List.countP_cons, Event.isHostCopy, ih]

theorem zip_offsets_length (slots : List Slot) :
    ((offsets slots).zip slots).length = slots.length := by
  rw [List.length_zip, offsets, layout_length, Nat.min_self]

theorem toContiguousHostMem_ok (A : FAllocator) (maxBytes base : Nat)
    (slots : List Slot) (hov : totalSize 0 slots ≤ maxBytes)
    (hhost : A AllocType.Host (totalSize 0 slots) (maxAlign slots)
      = Except.ok base) :
    ToContiguousHostMem A maxBytes slots =
      (Except.ok ((offsets slots).map (fun o => base + o)),
       Event.alloc AllocType.Host (totalSize 0 slots) (maxAlign slots) ::
         ((offsets slots).zip slots).map
           (fun q => Event.hostCopy (base + q.1) q.2.size)) := by
  unfold ToContiguousHostMem
  rw [if_neg (Nat.not_lt.mpr hov), hhost]

theorem toContiguousHostMem_overflow (A : FAllocator) (maxBytes : Nat)
    (slots : List Slot) (h : maxBytes < totalSize 0 slots) :
    ToContiguousHostMem A maxBytes slots
      = (Except.error PackError.overflow, []) := by
  unfold ToContiguousHostMem
  rw [if_pos h]

theorem toContiguousHostMem_allocFail (A : FAllocator) (maxBytes : Nat)
    (slots : List Slot) (e : AllocFailure)
    (hov : totalSize 0 slots ≤ maxBytes)
    (hfail : A AllocType.Host (totalSize 0 slots) (maxAlign slots)
      = Except.error e) :
    ToContiguousHostMem A maxBytes slots =
      (Except.error (PackError.allocFail e),
       [Event.alloc AllocType.Host (totalSize 0 slots) (maxAlign slots)]) := by
  unfold ToContiguousHostMem
  rw [if_neg (Nat.not_lt.mpr hov), hfail]

theorem toContiguousGPUMem_ok (A : FAllocator) (maxBytes stream gbase stage : Nat)
    (slots : List Slot) (hov : totalSize 0 slots ≤ maxBytes)
    (hgpu : A AllocType.GPU (totalSize 0 slots) (maxAlign slots)
      = Except.ok gbase)
    (hstage : A AllocType.Host (totalSize 0 slots) (maxAlign slots)
      = Except.ok stage) :
    ToContiguousGPUMem A maxBytes stream slots =
      (Except.ok ((offsets slots).map (fun o => gbase + o)),
       Event.alloc AllocType.GPU (totalSize 0 slots) (maxAlign slots) ::
         Event.alloc AllocType.Host (totalSize 0 slots) (maxAlign slots) ::
         ((offsets slots).zip slots).map
           (fun q => Event.hostCopy (stage + q.1) q.2.size) ++
         [Event.h2dAsync stream gbase (totalSize 0 slots)]) := by
  unfold ToContiguousGPUMem
  rw [if_neg (Nat.not_lt.mpr hov), hgpu, hstage]

theorem toContiguousGPUMem_overflow (A : FAllocator) (maxBytes stream : Nat)
    (slots : List Slot) (h : maxBytes < totalSize 0 slots) :
    ToContiguousGPUMem A maxBytes stream slots
      = (Except.error PackError.overflow, []) := by
  unfold ToContiguousGPUMem
  rw [if_pos h]

theorem toContiguousGPUMem_allocFail (A : FAllocator) (maxBytes stream : Nat)
    (slots : List Slot) (e : AllocFailure)
    (hov : totalSize 0 slots ≤ maxBytes)
    (hfail : A AllocType.GPU (totalSize 0 slots) (maxAlign slots)
      = Except.error e) :
    ToContiguousGPUMem A maxBytes stream slots =
      (Except.error (PackError.allocFail e),
       [Event.alloc AllocType.GPU (totalSize 0 slots) (maxAlign slots)]) := by
  unfold ToContiguousGPUMem
  rw [if_neg (Nat.not_lt.mpr hov), hfail]

theorem toContiguousGPUMem_stageFail (A : FAllocator)
    (maxBytes stream gbase : Nat) (slots : List Slot) (e : AllocFailure)
    (hov : totalSize 0 slots ≤ maxBytes)
    (hgpu : A AllocType.GPU (totalSize 0 slots) (maxAlign slots)
      = Except.ok gbase)
    (hfail : A AllocType.Host (totalSize 0 slots) (maxAlign slots)
      = Except.error e) :
    ToContiguousGPUMem A maxBytes stream slots =
      (Except.error (PackError.allocFail e),
       [Event.alloc AllocType.GPU (totalSize 0 slots) (maxAlign slots),
        Event.alloc AllocType.Host (totalSize 0 slots) (maxAlign slots)]) := by
  unfold ToContiguousGPUMem
  rw [if_neg (Nat.not_lt.mpr hov), hgpu, hfail]

/-- Claim C6: the typed allocation helper `Allocate<T>` requests exactly
`count * sizeof(T)` bytes, and its defaulted alignment is `alignof(T)`;
`AllocTensor` requests exactly `volume(shape) * sizeof(T)` bytes and returns
a view pairing the fresh pointer with the given shape; `AllocTensorList`
issues exactly one allocation of `(Σ volume(shapes[i])) * sizeof(T)` bytes
backing all items. -/
theorem typed_alloc_helpers (A : Allocator) (T : TypeDesc) (t : AllocType)
    (count alignment : Nat) (shape : List Nat) (shapes : List (List Nat)) :
    Allocate A T t count alignment =
      (A t (count * T.size) alignment,
       [Event.alloc t (count * T.size) alignment]) ∧
    AllocateDefault A T t count =
      (A t (count * T.size) T.align, [Event.alloc t (count * T.size) T.align]) ∧
    AllocTensor A T t shape =
      ((A t (volume shape * T.size) T.align, shape),
       [Event.alloc t (volume shape * T.size) T.align]) ∧
    AllocTensorList A T t (TensorListShape.mk shapes) =
      ((A t ((shapes.map volume).sum * T.size) T.align,
        TensorListShape.mk shapes),
       [Event.alloc t ((shapes.map volume).sum * T.size) T.align]) ∧
    (AllocTensorList A T t (TensorListShape.mk shapes)).2.countP
      Event.isAlloc = 1 := by
  refine ⟨rfl, rfl, rfl, rfl, ?_⟩
  simp [AllocTensorList, AllocateDefault, Allocate, Alloc, List.countP_cons,
    Event.isAlloc]

/-- Claim C8: `ToGPU` allocates `size(c) * sizeof(T)` bytes of device memory
and enqueues exactly one asynchronous host-to-device transfer of those bytes
on the caller-supplied stream; its trace contains exactly one device
allocation, exactly one asynchronous transfer, and no blocking wait on the
device. -/
theorem toGPU_single_async (A : Allocator) (T : TypeDesc) (stream : Nat)
    (c : List α) :
    ToGPU A T stream c =
      (A AllocType.GPU (c.length * T.size) T.align, c.head?,
       [Event.alloc AllocType.GPU (c.length * T.size) T.align,
        Event.h2dAsync stream (A AllocType.GPU (c.length * T.size) T.align)
          (c.length * T.size)]) ∧
    (ToGPU A T stream c).2.2.countP Event.isH2D = 1 ∧
    (ToGPU A T stream c).2.2.countP Event.isBlockingWait = 0 ∧
    (ToGPU A T stream c).2.2.countP (Event.isAllocOf AllocType.GPU) = 1 := by
  refine ⟨rfl, ?_, ?_, ?_⟩ <;>
    simp [ToGPU, List.countP_cons, Event.isH2D, Event.isBlockingWait,
      Event.isAllocOf]

/-- Claim C9: the `std::vector<TensorShape>` overload of `AllocTensorList`
returns the same result as the `TensorListShape` overload applied to the
`TensorListShape` constructed from that vector, for every backing allocator,
element type, memory kind and shape list. -/
theorem allocTensorList_overloads_agree (A : Allocator) (T : TypeDesc)
    (t : AllocType) (shapes : List (List Nat)) :
    AllocTensorListVec A T t shapes =
      AllocTensorList A T t (TensorListShape.mk shapes) := rfl

/-- Claim C10: the copy source of `ToGPU` is `&c[0]`, so the element-0 access
has a valid target exactly when the collection is non-empty; for an empty
collection the 0-byte device allocation is still requested and the
asynchronous copy of 0 bytes is still enqueued, while the element-0 access
has no valid target (`none`).  The iterator-based helpers `ToHost`,
`ToPinned` and `ToUnified` handle an empty collection without accessing any
element: the memory is left unchanged. -/
theorem toGPU_source_access (A : Allocator) (T : TypeDesc) (stream : Nat)
    (m : Mem α) (c : List α) (h : 0 < c.length) :
    (ToGPU A T stream c).2.1 = some (c.get ⟨0, h⟩) ∧
    (ToGPU A T stream ([] : List α)).2.1 = none ∧
    (ToGPU A T stream ([] : List α)).2.2 =
      [Event.alloc AllocType.GPU 0 T.align,
       Event.h2dAsync stream (A AllocType.GPU 0 T.align) 0] ∧
    (ToHost A T m []).2.1 = m ∧
    (ToPinned A T m []).2.1 = m ∧
    (ToUnified A T m []).2.1 = m := by
  refine ⟨?_, rfl, ?_, rfl, rfl, rfl⟩
  · cases c with
    | nil => simp at h
    | cons x xs => rfl
  · simp [ToGPU]

/-- Witness for claim C10 at the concrete collection `[5]`. -/
theorem toGPU_source_access_witness :
    0 < ([5] : List Nat).length ∧
    (ToGPU rawAllocator (TypeDesc.mk 4 4) 7 ([5] : List Nat)).2.1 = some 5 :=
  ⟨by decide,
   (toGPU_source_access rawAllocator (TypeDesc.mk 4 4) 7 emptyMem [5]
     (by decide)).1⟩

/-- Claim C7: each host-resident transfer helper allocates exactly
`length(c) * sizeof(T)` bytes in its memory kind and performs one
synchronous host-side copy — no asynchronous transfer, no blocking wait —
and when the call returns the fresh buffer already holds every element of
the source in order: reading the buffer at index `j` yields element `j` of
the source. -/
theorem to_host_resident_copy (A : Allocator) (T : TypeDesc) (m : Mem α)
    (c : List α) (j : Nat) (hj : j < c.length) :
    (ToHost A T m c).2.2 =
      [Event.alloc AllocType.Host (c.length * T.size) T.align,
       Event.hostCopy ((ToHost A T m c).1) (c.length * T.size)] ∧
    (ToPinned A T m c).2.2 =
      [Event.alloc AllocType.Pinned (c.length * T.size) T.align,
       Event.hostCopy ((ToPinned A T m c).1) (c.length * T.size)] ∧
    (ToUnified A T m c).2.2 =
      [Event.alloc AllocType.Unified (c.length * T.size) T.align,
       Event.hostCopy ((ToUnified A T m c).1) (c.length * T.size)] ∧
    (ToHost A T m c).2.1 ((ToHost A T m c).1 + j) = some (c.get ⟨j, hj⟩) ∧
    (ToPinned A T m c).2.1 ((ToPinned A T m c).1 + j) = some (c.get ⟨j, hj⟩) ∧
    (ToUnified A T m c).2.1 ((ToUnified A T m c).1 + j) = some (c.get ⟨j, hj⟩) ∧
    (ToHost A T m c).2.2.countP Event.isH2D = 0 ∧
    (ToHost A T m c).2.2.countP Event.isBlockingWait = 0 := by
  refine ⟨rfl, rfl, rfl, ?_, ?_, ?_, ?_, ?_⟩
  · exact copyToMem_read m _ c j hj
  · exact copyToMem_read m _ c j hj
  · exact copyToMem_read m _ c j hj
  · simp [ToHost, List.countP_cons, Event.isH2D]
  · simp [ToHost, List.countP_cons, Event.isBlockingWait]

/-- Witness for claim C7 at the concrete collection `[10, 20, 30]`. -/
theorem to_host_resident_copy_witness :
    1 < ([10, 20, 30] : List Nat).length ∧
    (ToHost rawAllocator (TypeDesc.mk 4 4) emptyMem [10, 20, 30]).2.1
      ((ToHost rawAllocator (TypeDesc.mk 4 4) emptyMem [10, 20, 30]).1 + 1)
      = some 20 :=
  ⟨by decide,
   (to_host_resident_copy rawAllocator (TypeDesc.mk 4 4) emptyMem
     [10, 20, 30] 1 (by decide)).2.2.2.1⟩

/-- Claim C1: offset 0 is the initial cursor 0 rounded up to the first
collection's alignment; every subsequent offset is the least offset that is
at least the previous sub-range's end and a multiple of its own collection's
alignment; the sub-ranges are pairwise disjoint and appear in input order
(every earlier sub-range ends at or before every later one begins); and the
packing returns, in input order, one pointer per collection equal to
`base + offset_i`, for the host and the GPU destination alike. -/
theorem toContiguous_layout (A : FAllocator) (maxBytes stream base gbase : Nat)
    (slots : List Slot)
    (hpos : ∀ s ∈ slots, 0 < s.align)
    (hov : totalSize 0 slots ≤ maxBytes)
    (hhost : A AllocType.Host (totalSize 0 slots) (maxAlign slots)
      = Except.ok base)
    (hgpu : A AllocType.GPU (totalSize 0 slots) (maxAlign slots)
      = Except.ok gbase) :
    (ToContiguousHostMem A maxBytes slots).1 =
      Except.ok ((offsets slots).map (fun o => base + o)) ∧
    (ToContiguousGPUMem A maxBytes stream slots).1 =
      Except.ok ((offsets slots).map (fun o => gbase + o)) ∧
    (offsets slots).length = slots.length ∧
    (offsets slots).head? = slots.head?.map (fun s => alignUp 0 s.align) ∧
    List.Chain' (fun p q : Nat × Slot =>
        IsLeast {o | p.1 + p.2.size ≤ o ∧ q.2.align ∣ o} q.1)
      ((offsets slots).zip slots) ∧
    List.Pairwise (fun p q : Nat × Slot => p.1 + p.2.size ≤ q.1)
      ((offsets slots).zip slots) := by
  refine ⟨?_, ?_, layout_length 0 slots, layout_head 0 slots,
    layout_chain_least 0 slots hpos, layout_pairwise 0 slots hpos⟩
  · rw [toContiguousHostMem_ok A maxBytes base slots hov hhost]
  · rw [toContiguousGPUMem_ok A maxBytes stream gbase base slots hov hgpu hhost]

/-- Witness for claim C1: packing 12 bytes at alignment 4 and 16 bytes at
alignment 8 gives offsets 0 and 16 and host pointers 100 and 116. -/
theorem toContiguous_layout_witness :
    (∀ s ∈ demoSlots, 0 < s.align) ∧
    totalSize 0 demoSlots ≤ 1000 ∧
    okAllocator AllocType.Host (totalSize 0 demoSlots) (maxAlign demoSlots)
      = Except.ok 100 ∧
    okAllocator AllocType.GPU (totalSize 0 demoSlots) (maxAlign demoSlots)
      = Except.ok 100 ∧
    (ToContiguousHostMem okAllocator 1000 demoSlots).1
      = Except.ok [100, 116] :=
  ⟨by decide, by decide, rfl, rfl,
   ((toContiguous_layout okAllocator 1000 7 100 100 demoSlots
      (by decide) (by decide) rfl rfl).1).trans rfl⟩

/-- Claim C2: a host-destination packing call issues exactly one allocation,
of `totalSize` bytes at the largest input alignment (the minimum default 1
when there are no collections), then copies each collection to
`base + offset_i` — N ordinary host copies, one allocation and no device
transfer. -/
theorem toContiguousHost_calls (A : FAllocator) (maxBytes base : Nat)
    (slots : List Slot)
    (hpos : ∀ s ∈ slots, 0 < s.align)
    (hov : totalSize 0 slots ≤ maxBytes)
    (hhost : A AllocType.Host (totalSize 0 slots) (maxAlign slots)
      = Except.ok base) :
    ToContiguousHostMem A maxBytes slots =
      (Except.ok ((offsets slots).map (fun o => base + o)),
       Event.alloc AllocType.Host (totalSize 0 slots) (maxAlign slots) ::
         ((offsets slots).zip slots).map
           (fun q => Event.hostCopy (base + q.1) q.2.size)) ∧
    (ToContiguousHostMem A maxBytes slots).2.countP Event.isAlloc = 1 ∧
    (ToContiguousHostMem A maxBytes slots).2.countP Event.isHostCopy
      = slots.length ∧
    (ToContiguousHostMem A maxBytes slots).2.countP Event.isH2D = 0 ∧
    (∀ s ∈ slots, s.align ≤ maxAlign slots) ∧
    (slots ≠ [] → maxAlign slots ∈ slots.map Slot.align) ∧
    maxAlign ([] : List Slot) = 1 := by
  have hok := toContiguousHostMem_ok A maxBytes base slots hov hhost
  refine ⟨hok, ?_, ?_, ?_, maxAlign_is_ub slots,
    fun hne => maxAlign_mem slots hne hpos, rfl⟩
  · rw [hok]
    simp only [List.countP_cons]
    rw [countP_map_hostCopy Event.isAlloc (fun q => base + q.1)
      (fun d b => rfl) ((offsets slots).zip slots)]
    rfl
  · rw [hok]
    simp only [List.countP_cons]
    rw [countP_map_hostCopy_self (fun q => base + q.1)
      ((offsets slots).zip slots), zip_offsets_length]
    rfl
  · rw [hok]
    simp only [List.countP_cons]
    rw [countP_map_hostCopy Event.isH2D (fun q => base + q.1)
      (fun d b => rfl) ((offsets slots).zip slots)]
    rfl

/-- Witness for claim C2 at the two demo collections. -/
theorem toContiguousHost_calls_witness :
    (∀ s ∈ demoSlots, 0 < s.align) ∧
    totalSize 0 demoSlots ≤ 1000 ∧
    okAllocator AllocType.Host (totalSize 0 demoSlots) (maxAlign demoSlots)
      = Except.ok 100 ∧
    (ToContiguousHostMem okAllocator 1000 demoSlots).2.countP Event.isAlloc
      = 1 ∧
    (ToContiguousHostMem okAllocator 1000 demoSlots).2.countP
      Event.isHostCopy = 2 :=
  ⟨by decide, by decide, rfl,
   (toContiguousHost_calls okAllocator 1000 100 demoSlots
     (by decide) (by decide) rfl).2.1,
   ((toContiguousHost_calls okAllocator 1000 100 demoSlots
     (by decide) (by decide) rfl).2.2.1).trans rfl⟩

/-- Claim C3: a device-destination packing call with a caller-supplied
stream assembles the full `totalSize`-byte image via one scratch host
staging allocation and N host-side copies into `stage + offset_i`, and then
issues exactly one asynchronous transfer of the whole image to the device
allocation on that stream — exactly one device allocation and exactly one
asynchronous transfer, never two. -/
theorem toContiguousGPU_calls (A : FAllocator)
    (maxBytes stream gbase stage : Nat) (slots : List Slot)
    (hov : totalSize 0 slots ≤ maxBytes)
    (hgpu : A AllocType.GPU (totalSize 0 slots) (maxAlign slots)
      = Except.ok gbase)
    (hstage : A AllocType.Host (totalSize 0 slots) (maxAlign slots)
      = Except.ok stage) :
    ToContiguousGPUMem A maxBytes stream slots =
      (Except.ok ((offsets slots).map (fun o => gbase + o)),
       Event.alloc AllocType.GPU (totalSize 0 slots) (maxAlign slots) ::
         Event.alloc AllocType.Host (totalSize 0 slots) (maxAlign slots) ::
         ((offsets slots).zip slots).map
           (fun q => Event.hostCopy (stage + q.1) q.2.size) ++
         [Event.h2dAsync stream gbase (totalSize 0 slots)]) ∧
    (ToContiguousGPUMem A maxBytes stream slots).2.countP
      (Event.isAllocOf AllocType.GPU) = 1 ∧
    (ToContiguousGPUMem A maxBytes stream slots).2.countP
      (Event.isAllocOf AllocType.Host) = 1 ∧
    (ToContiguousGPUMem A maxBytes stream slots).2.countP Event.isH2D = 1 ∧
    (ToContiguousGPUMem A maxBytes stream slots).2.countP Event.isHostCopy
      = slots.length := by
  have hok := toContiguousGPUMem_ok A maxBytes stream gbase stage slots hov
    hgpu hstage
  refine ⟨hok, ?_, ?_, ?_, ?_⟩
  · rw [hok]
    simp only [List.countP_cons, List.countP_append]
    rw [countP_map_hostCopy (Event.isAllocOf AllocType.GPU)
      (fun q => stage + q.1) (fun d b => rfl) ((offsets slots).zip slots)]
    simp [Event.isAllocOf]
  · rw [hok]
    simp only [List.countP_cons, List.countP_append]
    rw [countP_map_hostCopy (Event.isAllocOf AllocType.Host)
      (fun q => stage + q.1) (fun d b => rfl) ((offsets slots).zip slots)]
    simp [Event.isAllocOf]
  · rw [hok]
    simp only [List.countP_cons, List.countP_append]
    rw [countP_map_hostCopy Event.isH2D
      (fun q => stage + q.1) (fun d b => rfl) ((offsets slots).zip slots)]
    simp [Event.isH2D]
  · rw [hok]
    simp only [List.countP_cons, List.countP_append]
    rw [countP_map_hostCopy_self (fun q => stage + q.1)
      ((offsets slots).zip slots), zip_offsets_length]
    simp [Event.isHostCopy]

/-- Witness for claim C3: packing 100 and 250 bytes of 4-byte-aligned
elements into device space — exactly one device allocation and one
asynchronous transfer. -/
theorem toContiguousGPU_calls_witness :
    totalSize 0 gpuSlots ≤ 1000 ∧
    okAllocator AllocType.GPU (totalSize 0 gpuSlots) (maxAlign gpuSlots)
      = Except.ok 100 ∧
    okAllocator AllocType.Host (totalSize 0 gpuSlots) (maxAlign gpuSlots)
      = Except.ok 100 ∧
    (ToContiguousGPUMem okAllocator 1000 7 gpuSlots).2.countP
      (Event.isAllocOf AllocType.GPU) = 1 ∧
    (ToContiguousGPUMem okAllocator 1000 7 gpuSlots).2.countP Event.isH2D
      = 1 :=
  ⟨by decide, rfl, rfl,
   (toContiguousGPU_calls okAllocator 1000 7 100 100 gpuSlots
     (by decide) rfl rfl).2.1,
   (toContiguousGPU_calls okAllocator 1000 7 100 100 gpuSlots
     (by decide) rfl rfl).2.2.2.1⟩

/-- Claim C5: if the running byte total overflows the representable range,
the packing fails with `overflow` before any allocation (empty trace); if
the single destination allocation fails, the whole operation fails with the
propagated allocator failure, nothing retained, no copy attempted and zero
transfer calls issued; and in every outcome each allocation call precedes
every copy or transfer call in the trace. -/
theorem toContiguous_failure (A : FAllocator) (maxBytes stream : Nat)
    (slots : List Slot) (e : AllocFailure) :
    (maxBytes < totalSize 0 slots →
       ToContiguousHostMem A maxBytes slots
         = (Except.error PackError.overflow, []) ∧
       ToContiguousGPUMem A maxBytes stream slots
         = (Except.error PackError.overflow, [])) ∧
    (totalSize 0 slots ≤ maxBytes →
       A AllocType.Host (totalSize 0 slots) (maxAlign slots)
         = Except.error e →
       ToContiguousHostMem A maxBytes slots =
         (Except.error (PackError.allocFail e),
          [Event.alloc AllocType.Host (totalSize 0 slots)
            (maxAlign slots)])) ∧
    (totalSize 0 slots ≤ maxBytes →
       A AllocType.GPU (totalSize 0 slots) (maxAlign slots)
         = Except.error e →
       ToContiguousGPUMem A maxBytes stream slots =
         (Except.error (PackError.allocFail e),
          [Event.alloc AllocType.GPU (totalSize 0 slots) (maxAlign slots)]) ∧
       (ToContiguousGPUMem A maxBytes stream slots).2.countP Event.isH2D
         = 0 ∧
       (ToContiguousGPUMem A maxBytes stream slots).2.countP
         Event.isHostCopy = 0) ∧
    (∀ gbase, totalSize 0 slots ≤ maxBytes →
       A AllocType.GPU (totalSize 0 slots) (maxAlign slots)
         = Except.ok gbase →
       A AllocType.Host (totalSize 0 slots) (maxAlign slots)
         = Except.error e →
       ToContiguousGPUMem A maxBytes stream slots =
         (Except.error (PackError.allocFail e),
          [Event.alloc AllocType.GPU (totalSize 0 slots) (maxAlign slots),
           Event.alloc AllocType.Host (totalSize 0 slots)
             (maxAlign slots)])) ∧
    ((ToContiguousHostMem A maxBytes slots).2 =
       (ToContiguousHostMem A maxBytes slots).2.filter Event.isAlloc ++
       (ToContiguousHostMem A maxBytes slots).2.filter
         (fun ev => !ev.isAlloc)) ∧
    ((ToContiguousGPUMem A maxBytes stream slots).2 =
       (ToContiguousGPUMem A maxBytes stream slots).2.filter Event.isAlloc ++
       (ToContiguousGPUMem A maxBytes stream slots).2.filter
         (fun ev => !ev.isAlloc)) := by
  refine ⟨?_, ?_, ?_, ?_, ?_, ?_⟩
  · intro h
    exact ⟨toContiguousHostMem_overflow A maxBytes slots h,
      toContiguousGPUMem_overflow A maxBytes stream slots h⟩
  · intro hov hfail
    exact toContiguousHostMem_allocFail A maxBytes slots e hov hfail
  · intro hov hfail
    refine ⟨toContiguousGPUMem_allocFail A maxBytes stream slots e hov hfail,
      ?_, ?_⟩ <;>
      rw [toContiguousGPUMem_allocFail A maxBytes stream slots e hov hfail] <;>
      rfl
  · intro gbase hov hgpu hfail
    exact toContiguousGPUMem_stageFail A maxBytes stream gbase slots e hov
      hgpu hfail
  · by_cases hov : maxBytes < totalSize 0 slots
    · rw [toContiguousHostMem_overflow A maxBytes slots hov]
      rfl
    · cases hA : A AllocType.Host (totalSize 0 slots) (maxAlign slots) with
      | error e2 =>
        rw [toContiguousHostMem_allocFail A maxBytes slots e2
          (Nat.not_lt.mp hov) hA]
        exact filter_split_allocFirst
          [Event.alloc AllocType.Host (totalSize 0 slots) (maxAlign slots)]
          []
          (by intro ev hev; rw [List.mem_singleton] at hev; subst hev; rfl)
          (by intro ev hev; simp at hev)
      | ok base =>
        rw [toContiguousHostMem_ok A maxBytes base slots
          (Nat.not_lt.mp hov) hA]
        exact filter_split_allocFirst
          [Event.alloc AllocType.Host (totalSize 0 slots) (maxAlign slots)]
          (((offsets slots).zip slots).map
            (fun q => Event.hostCopy (base + q.1) q.2.size))
          (by intro ev hev; rw [List.mem_singleton] at hev; subst hev; rfl)
          (by intro ev hev
              obtain ⟨q, hq, rfl⟩ := List.mem_map.mp hev
              rfl)
  · by_cases hov : maxBytes < totalSize 0 slots
    · rw [toContiguousGPUMem_overflow A maxBytes stream slots hov]
      rfl
    · cases hG : A AllocType.GPU (totalSize 0 slots) (maxAlign slots) with
      | error e2 =>
        rw [toContiguousGPUMem_allocFail A maxBytes stream slots e2
          (Nat.not_lt.mp hov) hG]
        exact filter_split_allocFirst
          [Event.alloc AllocType.GPU (totalSize 0 slots) (maxAlign slots)]
          []
          (by intro ev hev; rw [List.mem_singleton] at hev; subst hev; rfl)
          (by intro ev hev; simp at hev)
      | ok gbase =>
        cases hH : A AllocType.Host (totalSize 0 slots) (maxAlign slots) with
        | error e2 =>
          rw [toContiguousGPUMem_stageFail A maxBytes stream gbase slots e2
            (Nat.not_lt.mp hov) hG hH]
          exact filter_split_allocFirst
            [Event.alloc AllocType.GPU (totalSize 0 slots) (maxAlign slots),
             Event.alloc AllocType.Host (totalSize 0 slots) (maxAlign slots)]
            []
            (by intro ev hev
                rcases List.mem_cons.mp hev with h1 | h2
                · subst h1; rfl
                · rw [List.mem_singleton] at h2; subst h2; rfl)
            (by intro ev hev; simp at hev)
        | ok stage =>
          rw [toContiguousGPUMem_ok A maxBytes stream gbase stage slots
            (Nat.not_lt.mp hov) hG hH]
          exact filter_split_allocFirst
            [Event.alloc AllocType.GPU (totalSize 0 slots) (maxAlign slots),
             Event.alloc AllocType.Host (totalSize 0 slots) (maxAlign slots)]
            (((offsets slots).zip slots).map
              (fun q => Event.hostCopy (stage + q.1) q.2.size) ++
              [Event.h2dAsync stream gbase (totalSize 0 slots)])
            (by intro ev hev
                rcases List.mem_cons.mp hev with h1 | h2
                · subst h1; rfl
                · rw [List.mem_singleton] at h2; subst h2; rfl)
            (by intro ev hev
                rcases List.mem_append.mp hev with h1 | h2
                · obtain ⟨q, hq, rfl⟩ := List.mem_map.mp h1
                  rfl
                · rw [List.mem_singleton] at h2; subst h2; rfl)

/-- Witness for claim C5: a representable range of 1 byte fails the demo
packing with overflow and an empty trace; an exhausted allocator fails it
with the propagated failure after exactly the single allocation attempt. -/
theorem toContiguous_failure_witness :
    1 < totalSize 0 demoSlots ∧
    ToContiguousHostMem okAllocator 1 demoSlots
      = (Except.error PackError.overflow, []) ∧
    totalSize 0 demoSlots ≤ 1000 ∧
    failAllocator AllocType.Host (totalSize 0 demoSlots) (maxAlign demoSlots)
      = Except.error AllocFailure.exhausted ∧
    ToContiguousHostMem failAllocator 1000 demoSlots =
      (Except.error (PackError.allocFail AllocFailure.exhausted),
       [Event.alloc AllocType.Host (totalSize 0 demoSlots)
         (maxAlign demoSlots)]) :=
  ⟨by decide,
   ((toContiguous_failure okAllocator 1 7 demoSlots
      AllocFailure.exhausted).1 (by decide)).1,
   by decide, rfl,
   (toContiguous_failure failAllocator 1000 7 demoSlots
     AllocFailure.exhausted).2.1 (by decide) rfl⟩

/-- Claim C4, counterexample: in the packing `[12 bytes @ 4, 0 bytes @ 32,
4 bytes @ 4]` the zero-length collection's own 32-byte alignment rounding
moves the cursor to 32, so the following collection lands at offset 32,
whereas packing without the zero-length collection puts it at offset 12:
a zero-length collection placed between two non-empty collections can alter
the alignment-driven offset of the following collection. -/
theorem zero_slot_alters_following_offset :
    offsets [Slot.mk 12 4, Slot.mk 0 32, Slot.mk 4 4] = [0, 32, 32] ∧
    offsets [Slot.mk 12 4, Slot.mk 4 4] = [0, 12] ∧
    ¬ ((offsets [Slot.mk 12 4, Slot.mk 0 32, Slot.mk 4 4])[2]?
        = (offsets [Slot.mk 12 4, Slot.mk 4 4])[1]?) := by decide

/-- Claim C4 (amended): a zero-length collection contributes zero bytes and
receives the offset equal to the cursor at its turn rounded up to its own
alignment; and provided its alignment divides the following collection's
alignment (for power-of-two alignments: does not exceed it), the offsets of
all following collections are exactly those obtained by omitting the
zero-length collection. -/
theorem layout_zero_slot (cursor : Nat) (z s : Slot) (rest : List Slot)
    (hz : z.size = 0) (hza : 0 < z.align) (hsa : 0 < s.align)
    (hdvd : z.align ∣ s.align) :
    layout cursor (z :: s :: rest) =
      alignUp cursor z.align :: layout cursor (s :: rest) := by
  simp [layout, hz, alignUp_alignUp hza hsa hdvd]

/-- Witness for the amended claim C4: a zero-length 4-aligned collection
before an 8-aligned collection leaves the following offsets unchanged. -/
theorem layout_zero_slot_witness :
    (Slot.mk 0 4).size = 0 ∧ 0 < (Slot.mk 0 4).align ∧
    0 < (Slot.mk 8 8).align ∧ (Slot.mk 0 4).align ∣ (Slot.mk 8 8).align ∧
    layout 0 [Slot.mk 0 4, Slot.mk 8 8] =
      alignUp 0 4 :: layout 0 [Slot.mk 8 8] :=
  ⟨rfl, by decide, by decide, by decide,
   layout_zero_slot 0 (Slot.mk 0 4) (Slot.mk 8 8) [] rfl (by decide)
     (by decide) (by decide)⟩

end DALI
